import Mathlib

/-!
Verification development for the fsm-chatbot-demo repository.

The definitions below are a shallow embedding of the Python sources:
  * src/models.py   : SessionState, VALID_TRANSITIONS, Message, Session,
                      Session.add_message, Session.update_state, StreamEvent
  * src/fsm.py      : ChatFSM.handle_user_message, ChatFSM.start_ai_generation,
                      ChatFSM.commit_ai_message, ChatFSM.mark_error
  * src/ai_service.py : AIService._process_session, _generate_mock_response,
                      _stream_response
  * src/broker.py   : InMemoryBroker.dequeue_session, send_event,
                      get_session_events, cleanup_session_queue

Machine-level conventions of the embedding:
  * Python exceptions are modelled with Except String carrying the exact
    message the Python code formats; an operation that mutates a session
    object in place and may raise is modelled as returning the final object
    state together with the outcome.
  * datetime.utcnow() is modelled as a Nat clock value passed in by the
    caller; uuid values are irrelevant to every claim and are omitted from
    Message (Session keeps its id because error messages interpolate it).
  * db.update_session can raise (database.py raises ValueError when the
    session id is absent, e.g. after a concurrent delete); operations that
    perform db writes take a list of write indices that fail.
-/

/-- States of src/models.py SessionState. -/
inductive SessionState where
  | idle
  | user_writing
  | user_committed
  | ai_generating
  | ai_committed
  | error
  | timeout

deriving DecidableEq, Repr, Fintype

/-- The .value string of each SessionState member. -/
def SessionState.value : SessionState → String
  | .idle => "idle"
  | .user_writing => "user_writing"
  | .user_committed => "user_committed"
  | .ai_generating => "ai_generating"
  | .ai_committed => "ai_committed"
  | .error => "error"
  | .timeout => "timeout"

/-- The transition table VALID_TRANSITIONS of src/models.py (lines 21-29). -/
def VALID_TRANSITIONS : SessionState → List SessionState
  | .idle => [.user_writing, .timeout]
  | .user_writing => [.user_committed, .error]
  | .user_committed => [.ai_generating, .error]
  | .ai_generating => [.ai_committed, .error]
  | .ai_committed => [.idle]
  | .error => [.idle]
  | .timeout => [.idle]

/-- A Message (src/models.py lines 32-48); the uuid id field is omitted. -/
structure Message where
  role : String
  content : String
  timestamp : Nat

deriving DecidableEq, Repr

/-- A Session (src/models.py lines 51-64); timestamps are Nat clock values. -/
structure Session where
  id : String
  user_id : String
  state : SessionState
  messages : List Message
  created_at : Nat
  updated_at : Nat
  error_message : Option String
  retry_count : Nat

deriving DecidableEq, Repr

/-- Session.add_message (models.py lines 66-69): append and refresh the
update timestamp. -/
def Session.add_message (s : Session) (m : Message) (now : Nat) : Session :=
  { s with messages := s.messages ++ [m], updated_at := now }

/-- The single-quote character, built numerically so the file avoids literal
quote characters inside string literals. -/
def pyQuote : String := String.singleton (Char.ofNat 39)

/-- repr of a Python list of strings, as an f-string interpolates it. -/
def pyStrListRepr (l : List String) : String :=
  "[" ++ String.intercalate ", " (l.map (fun v => pyQuote ++ v ++ pyQuote)) ++ "]"

/-- The exact ValueError message of Session.update_state (models.py 79-82). -/
def invalidTransitionMsg (cur new : SessionState) (valid : List SessionState) : String :=
  "Invalid state transition: " ++ cur.value ++ " -> " ++ new.value ++
    ". Valid transitions: " ++ pyStrListRepr (valid.map SessionState.value)

/-- Python truthiness of an Optional[str]: None and the empty string are
falsy. -/
def truthy : Option String → Bool
  | none => false
  | some m => m ≠ ""

/-- Session.update_state (models.py lines 71-91): validate the transition
against VALID_TRANSITIONS, then set state and timestamp, then set the error
description when one is (truthily) supplied, otherwise clear it when moving
to a non-error state. Raises ValueError (modelled as Except.error with the
exact message) when the transition is absent from the table, leaving the
session untouched. -/
def Session.update_state (s : Session) (new_state : SessionState)
    (error_msg : Option String) (now : Nat) : Except String Session :=
  let valid_next_states := VALID_TRANSITIONS s.state
  if new_state ∈ valid_next_states then
    let s1 : Session := { s with state := new_state, updated_at := now }
    let s2 : Session :=
      if truthy error_msg then { s1 with error_message := error_msg }
      else if new_state ≠ SessionState.error then { s1 with error_message := none }
      else s1
    Except.ok s2
  else
    Except.error (invalidTransitionMsg s.state new_state valid_next_states)

/-- Python str.lower for the ASCII range (all strings the program builds are
ASCII); agrees with CPython on every character appearing in the sources. -/
def lowerStr (s : String) : String := ⟨s.data.map Char.toLower⟩

/-- Whether the second list starts with the first one. -/
def isHeadOf : List Char → List Char → Bool
  | [], _ => true
  | _ :: _, [] => false
  | a :: as, b :: bs => a = b && isHeadOf as bs

/-- Whether the first list occurs contiguously inside the second one:
the Python expression needle in hay on strings. -/
def hasSub (needle : List Char) : List Char → Bool
  | [] => needle.isEmpty
  | c :: t => isHeadOf needle (c :: t) || hasSub needle t

/-- Python needle in hay for strings. -/
def strIn (needle hay : String) : Bool := hasSub needle.data hay.data

/-- The whitespace characters Python str.split() splits on (ASCII range). -/
def isPyWsp (c : Char) : Bool :=
  c = ' ' || c = Char.ofNat 9 || c = Char.ofNat 10 || c = Char.ofNat 13 ||
    c = Char.ofNat 11 || c = Char.ofNat 12

/-- Helper of splitWords: cs is the remaining input, acc the reversed chars
of the word being read. -/
def splitWordsAux : List Char → List Char → List (List Char)
  | [], acc => if acc.isEmpty then [] else [acc.reverse]
  | c :: rest, acc =>
    if isPyWsp c then
      if acc.isEmpty then splitWordsAux rest []
      else acc.reverse :: splitWordsAux rest []
    else splitWordsAux rest (c :: acc)

/-- Python str.split() with no arguments: maximal runs of non-whitespace,
empty pieces discarded. -/
def splitWords (cs : List Char) : List (List Char) := splitWordsAux cs []

/-- Each word with a single leading space. -/
def sepWords : List (List Char) → List Char
  | [] => []
  | w :: ws => (' ' :: w) ++ sepWords ws

/-- The words joined by single spaces: what " ".join(words) yields. -/
def joinWords : List (List Char) → List Char
  | [] => []
  | w :: ws => w ++ sepWords ws

/-- The token payloads AIService._stream_response emits for a list of words
(ai_service.py lines 155-162): the first word raw, every later word with a
single leading space. -/
def tokensFromWords : List (List Char) → List (List Char)
  | [] => []
  | w :: ws => w :: ws.map (fun v => ' ' :: v)

/-- AIService._generate_mock_response (ai_service.py lines 133-150):
keyword checks are Python substring tests on the lowercased message. -/
def generate_mock_response (user_message : String) : String :=
  let user_lower := lowerStr user_message
  if strIn "hello" user_lower || strIn "hi" user_lower then
    "Hello! I" ++ pyQuote ++ "m a mock AI assistant. How can I help you today?"
  else if strIn "how are you" user_lower then
    "I" ++ pyQuote ++ "m doing well, thank you for asking! I" ++ pyQuote ++
      "m a demo chatbot showcasing FSM-based state management."
  else if strIn "bye" user_lower || strIn "goodbye" user_lower then
    "Goodbye! Thanks for chatting with me. Feel free to start a new conversation anytime."
  else if strIn "name" user_lower then
    "I" ++ pyQuote ++ "m FSM Bot, a demonstration chatbot built to showcase distributed systems patterns."
  else
    "I received your message: " ++ pyQuote ++ user_message ++ pyQuote ++
      ". This is a mock response demonstrating token streaming and state management."

/-- A StreamEvent (models.py lines 107-121). -/
structure StreamEvent where
  event_type : String
  data : String

deriving DecidableEq, Repr

/-- The terminal event kinds recognised by the relay loop (main.py 161). -/
def isTerminal (e : StreamEvent) : Bool :=
  e.event_type = "commit_done" || e.event_type = "error"

/-- The events AIService._stream_response (ai_service.py lines 152-179)
publishes for a response: one token event per token, then message_end with
empty payload. -/
def streamEvents (response : String) : List StreamEvent :=
  (tokensFromWords (splitWords response.data)).map
      (fun t => { event_type := "token", data := ⟨t⟩ }) ++
    [{ event_type := "message_end", data := "" }]

structure OpResult where
  session : Session
  entered : List SessionState
  outcome : Except String Unit

deriving Repr

/-- The message InMemoryDatabase raises for a missing id (database.py 35). -/
def dbNotFoundMsg (sid : String) : String := "Session " ++ sid ++ " not found"

/-- The gate rejection of ChatFSM.handle_user_message (fsm.py 60-63). -/
def cannotAcceptMsg (st : SessionState) : String :=
  "Cannot accept message in state " ++ st.value ++ ". Session must be IDLE or AI_COMMITTED."

/-- The guard rejection of ChatFSM.start_ai_generation (fsm.py 105-108). -/
def cannotStartMsg (st : SessionState) : String :=
  "Cannot start AI generation in state " ++ st.value ++ ". Expected USER_COMMITTED."

/-- The guard rejection of ChatFSM.commit_ai_message (fsm.py 125-128). -/
def cannotCommitMsg (st : SessionState) : String :=
  "Cannot commit AI message in state " ++ st.value ++ ". Expected AI_GENERATING."

/-- The except handler of ChatFSM.handle_user_message (fsm.py 88-92): mark
the session as error best-effort, then re-raise. When the error transition
itself raises, that new exception propagates and the session is untouched;
when the db write in the handler raises (write index 2), that exception
propagates. The retry counter is never touched on this path. -/
def submitFailure (s : Session) (e : String) (faults : List Nat) (now : Nat) : OpResult :=
  match s.update_state SessionState.error (some e) now with
  | Except.ok s1 =>
      if 2 ∈ faults then
        { session := s1, entered := [SessionState.error],
          outcome := Except.error (dbNotFoundMsg s1.id) }
      else
        { session := s1, entered := [SessionState.error], outcome := Except.error e }
  | Except.error e2 => { session := s, entered := [], outcome := Except.error e2 }

/-- Prefix already-entered states onto the failure handler result. -/
def prependEntered (l : List SessionState) (r : OpResult) : OpResult :=
  { r with entered := l ++ r.entered }

/-- ChatFSM.handle_user_message (fsm.py lines 42-92) on a session already
fetched (or freshly created) and ownership-checked: gate on idle or
ai_committed, transition to user_writing, db write 0, append the user
message, transition to user_committed, db write 1, enqueue. `faults` lists
the db writes that raise (modelling a session deleted concurrently, which
makes database.py update_session raise). -/
def handle_user_message (s : Session) (content : String) (faults : List Nat)
    (now : Nat) : OpResult :=
  if s.state = SessionState.idle ∨ s.state = SessionState.ai_committed then
    match s.update_state SessionState.user_writing none now with
    | Except.error e => submitFailure s e faults now
    | Except.ok s1 =>
      if 0 ∈ faults then
        prependEntered [SessionState.user_writing]
          (submitFailure s1 (dbNotFoundMsg s1.id) faults now)
      else
        let s2 := s1.add_message { role := "user", content := content, timestamp := now } now
        match s2.update_state SessionState.user_committed none now with
        | Except.error e => prependEntered [SessionState.user_writing]
            (submitFailure s2 e faults now)
        | Except.ok s3 =>
          if 1 ∈ faults then
            prependEntered [SessionState.user_writing, SessionState.user_committed]
              (submitFailure s3 (dbNotFoundMsg s3.id) faults now)
          else
            { session := s3,
              entered := [SessionState.user_writing, SessionState.user_committed],
              outcome := Except.ok () }
  else
    { session := s, entered := [], outcome := Except.error (cannotAcceptMsg s.state) }

/-- ChatFSM.start_ai_generation (fsm.py lines 94-112) on the fetched
session: guard state = user_committed, then transition to ai_generating. -/
def start_ai_generation (s : Session) (now : Nat) : OpResult :=
  if s.state = SessionState.user_committed then
    match s.update_state SessionState.ai_generating none now with
    | Except.ok s1 =>
        { session := s1, entered := [SessionState.ai_generating], outcome := Except.ok () }
    | Except.error e => { session := s, entered := [], outcome := Except.error e }
  else
    { session := s, entered := [], outcome := Except.error (cannotStartMsg s.state) }

/-- ChatFSM.commit_ai_message (fsm.py lines 114-147) on the fetched session:
guard state = ai_generating, append the assistant message, transition to
ai_committed (persisted), then immediately to idle (persisted). -/
def commit_ai_message (s : Session) (content : String) (now : Nat) : OpResult :=
  if s.state = SessionState.ai_generating then
    let s1 := s.add_message { role := "assistant", content := content, timestamp := now } now
    match s1.update_state SessionState.ai_committed none now with
    | Except.ok s2 =>
      match s2.update_state SessionState.idle none now with
      | Except.ok s3 =>
          { session := s3,
            entered := [SessionState.ai_committed, SessionState.idle],
            outcome := Except.ok () }
      | Except.error e =>
          { session := s2, entered := [SessionState.ai_committed],
            outcome := Except.error e }
    | Except.error e => { session := s1, entered := [], outcome := Except.error e }
  else
    { session := s, entered := [], outcome := Except.error (cannotCommitMsg s.state) }

/-- ChatFSM.mark_error (fsm.py lines 149-161) on the fetched session:
transition to error with the description, then increment the retry counter.
When the transition raises (error not reachable from the current state in
VALID_TRANSITIONS) the exception propagates and nothing changes. -/
def mark_error (s : Session) (error_message : String) (now : Nat) : OpResult :=
  match s.update_state SessionState.error (some error_message) now with
  | Except.ok s1 =>
      { session := { s1 with retry_count := s1.retry_count + 1 },
        entered := [SessionState.error], outcome := Except.ok () }
  | Except.error e => { session := s, entered := [], outcome := Except.error e }

/-- Whether an Except String Unit outcome is ok, as a Bool. -/
def isOkB : Except String Unit → Bool
  | Except.ok _ => true
  | Except.error _ => false

/-- The except branch of AIService._process_session (ai_service.py lines
119-131): call fsm.mark_error on the current db contents, then publish an
error event — but both sit in one nested try, so when mark_error raises
(session gone, or the error transition invalid from the current state) the
error event is never sent. Returns the db contents afterwards plus the
events published by this branch. -/
def onFailure (sess : Option Session) (e : String) (now : Nat) :
    Option Session × List StreamEvent :=
  match sess with
  | none => (none, [])
  | some s =>
    let r := mark_error s e now
    match r.outcome with
    | Except.ok _ => (some r.session, [{ event_type := "error", data := e }])
    | Except.error _ => (some s, [])

/-- AIService._process_session (ai_service.py lines 80-131) for one
generation cycle: start generation (not-found and state guard modelled
through the fetched Option Session), check the last message is a user
message, generate the mock response, stream token events plus message_end,
commit the assistant message, publish commit_done. Any failure is handled
by onFailure; events already streamed stay published. Returns the db
contents after the cycle and the full list of events published during it. -/
def process_session (sess : Option Session) (sid : String) (now : Nat) :
    Option Session × List StreamEvent :=
  match sess with
  | none => onFailure none (dbNotFoundMsg sid) now
  | some s =>
    if s.state = SessionState.user_committed then
      let r := start_ai_generation s now
      match r.outcome with
      | Except.error e => onFailure (some s) e now
      | Except.ok _ =>
        let s1 := r.session
        match s1.messages.getLast? with
        | none => onFailure (some s1) "No user message found" now
        | some m =>
          if m.role = "user" then
            let response := generate_mock_response m.content
            let evs := streamEvents response
            let rc := commit_ai_message s1 response now
            match rc.outcome with
            | Except.ok _ =>
                (some rc.session, evs ++ [{ event_type := "commit_done", data := sid }])
            | Except.error e =>
                let fe := onFailure (some s1) e now
                (fe.1, evs ++ fe.2)
          else onFailure (some s1) "No user message found" now
    else onFailure (some s) (cannotStartMsg s.state) now

/-- InMemoryBroker.dequeue_session (broker.py lines 31-46) with the work
queue frozen (no concurrent producer during the call). Each loop iteration
polls get_nowait and, on Empty, sleeps 100 ms; `iters` is the number of
polls the deadline allows, i.e. about timeout / 0.1, so it is finite for
every timeout value. Returns the dequeued id or none, plus the remaining
queue; the Python body also wraps everything in a try that returns None, so
no exception ever reaches the caller. -/
def dequeue_loop (q : List String) (iters : Nat) : Option String × List String :=
  match iters, q with
  | 0, rest => (none, rest)
  | _ + 1, x :: rest => (some x, rest)
  | k + 1, [] => dequeue_loop [] k

/-- The event channel registry of InMemoryBroker: session id to queued,
not yet consumed events. -/
def EventMap := List (String × List StreamEvent)

/-- Python dict lookup. -/
def lookupQ : EventMap → String → Option (List StreamEvent)
  | [], _ => none
  | (k, v) :: rest, sid => if k = sid then some v else lookupQ rest sid

/-- Python dict assignment (keys are unique; first match replaced). -/
def setQ : EventMap → String → List StreamEvent → EventMap
  | [], sid, q => [(sid, q)]
  | (k, v) :: rest, sid, q =>
      if k = sid then (sid, q) :: rest else (k, v) :: setQ rest sid q

/-- Python del on the dict entry. -/
def removeQ : EventMap → String → EventMap
  | [], _ => []
  | (k, v) :: rest, sid =>
      if k = sid then removeQ rest sid else (k, v) :: removeQ rest sid

/-- InMemoryBroker.send_event (broker.py lines 48-56): create the queue
lazily if absent, then put the event. -/
def send_event (m : EventMap) (sid : String) (e : StreamEvent) : EventMap :=
  match lookupQ m sid with
  | none => setQ m sid [e]
  | some q => setQ m sid (q ++ [e])

/-- Fold send_event over a list of events. -/
def sendEvents (m : EventMap) (sid : String) (es : List StreamEvent) : EventMap :=
  es.foldl (fun acc e => send_event acc sid e) m

/-- InMemoryBroker.get_session_events (broker.py lines 58-63): return the
queue, creating it lazily; the returned read handle sees the queued events. -/
def get_session_events (m : EventMap) (sid : String) : List StreamEvent × EventMap :=
  match lookupQ m sid with
  | none => ([], setQ m sid [])
  | some q => (q, m)

/-- InMemoryBroker.cleanup_session_queue (broker.py lines 65-69). -/
def cleanup_session_queue (m : EventMap) (sid : String) : EventMap := removeQ m sid

/-- One State Machine operation applied to a session, with its clock value;
submit carries the set of failing db writes. -/
inductive Op where
  | submit (content : String) (faults : List Nat)
  | startGen
  | commitAi (content : String)
  | markErr (desc : String)

/-- Apply one operation to the session object. -/
def applyOp (s : Session) : Op × Nat → OpResult
  | (Op.submit content faults, now) => handle_user_message s content faults now
  | (Op.startGen, now) => start_ai_generation s now
  | (Op.commitAi content, now) => commit_ai_message s content now
  | (Op.markErr desc, now) => mark_error s desc now

/-- Run a list of operations, returning the final session object. -/
def runOps (s : Session) : List (Op × Nat) → Session
  | [] => s
  | step :: rest => runOps (applyOp s step).session rest

/-- The successive states the session object enters over a list of
operations, in order. -/
def traceOf (s : Session) : List (Op × Nat) → List SessionState
  | [] => []
  | step :: rest => (applyOp s step).entered ++ traceOf (applyOp s step).session rest

/-- The state sequence b :: l is a walk of the transition table starting at
a: every consecutive pair is an edge of VALID_TRANSITIONS. -/
def chainFrom (a : SessionState) : List SessionState → Prop
  | [] => True
  | b :: l => b ∈ VALID_TRANSITIONS a ∧ chainFrom b l

/-- The result session update_state produces on a legal transition. -/
def updatedSession (s : Session) (t : SessionState) (m : Option String) (now : Nat) : Session :=
  { s with
      state := t,
      updated_at := now,
      error_message :=
        if truthy m then m
        else if t ≠ SessionState.error then none else s.error_message }

/-- The last element of the walk a, l (a when l is empty). -/
def lastFrom (a : SessionState) : List SessionState → SessionState
  | [] => a
  | b :: l => lastFrom b l

/-- Concatenation of the payloads of the token events, in emission order. -/
def tokenConcat (evs : List StreamEvent) : List Char :=
  ((evs.filter (fun e => e.event_type = "token")).map (fun e => e.data.data)).flatten

/-- Outside the error state, the error description is cleared. -/
def errInv (s : Session) : Prop :=
  s.state ≠ SessionState.error → s.error_message = none

deriving instance DecidableEq for Except

/-- A concrete session used to evaluate the operations at specific inputs. -/
def demoSession (st : SessionState) (msgs : List Message) : Session :=
  { id := "s1", user_id := "u1", state := st, messages := msgs,
    created_at := 0, updated_at := 0, error_message := none, retry_count := 0 }

theorem update_state_eq_of_mem {s : Session} {t : SessionState} {m : Option String}
    {now : Nat} (h : t ∈ VALID_TRANSITIONS s.state) :
    s.update_state t m now = Except.ok (updatedSession s t m now) := by
  unfold Session.update_state updatedSession
  rw [if_pos h]
  by_cases hm : truthy m
  · simp [hm]
  · by_cases ht : t = SessionState.error
    · simp [hm, ht]
    · simp [hm, ht]

theorem update_state_err_of_not_mem {s : Session} {t : SessionState} {m : Option String}
    {now : Nat} (h : t ∉ VALID_TRANSITIONS s.state) :
    s.update_state t m now =
      Except.error (invalidTransitionMsg s.state t (VALID_TRANSITIONS s.state)) := by
  unfold Session.update_state
  rw [if_neg h]

theorem update_state_ok_inv {s s' : Session} {t : SessionState} {m : Option String}
    {now : Nat} (h : s.update_state t m now = Except.ok s') :
    t ∈ VALID_TRANSITIONS s.state ∧ s' = updatedSession s t m now := by
  by_cases hmem : t ∈ VALID_TRANSITIONS s.state
  · rw [update_state_eq_of_mem hmem] at h
    cases h
    exact ⟨hmem, rfl⟩
  · rw [update_state_err_of_not_mem hmem] at h
    cases h

theorem chainFrom_append {l1 l2 : List SessionState} :
    ∀ {a : SessionState}, chainFrom a l1 → chainFrom (lastFrom a l1) l2 →
      chainFrom a (l1 ++ l2) := by
  induction l1 with
  | nil => intro a _ h2; simpa using h2
  | cons b l ih =>
    intro a h1 h2
    obtain ⟨hb, hl⟩ := h1
    exact ⟨hb, ih hl h2⟩

theorem lastFrom_append (a : SessionState) (l1 l2 : List SessionState) :
    lastFrom a (l1 ++ l2) = lastFrom (lastFrom a l1) l2 := by
  induction l1 generalizing a with
  | nil => rfl
  | cons b l ih => simp [lastFrom, ih]

theorem submitFailure_chain (s : Session) (e : String) (faults : List Nat) (now : Nat) :
    chainFrom s.state (submitFailure s e faults now).entered ∧
      (submitFailure s e faults now).session.state =
        lastFrom s.state (submitFailure s e faults now).entered := by
  unfold submitFailure
  by_cases hmem : SessionState.error ∈ VALID_TRANSITIONS s.state
  · rw [update_state_eq_of_mem hmem]
    by_cases hf : 2 ∈ faults <;>
      simp [hf, chainFrom, hmem, updatedSession, lastFrom]
  · rw [update_state_err_of_not_mem hmem]
    simp [chainFrom, lastFrom]

theorem handle_user_message_chain (s : Session) (content : String)
    (faults : List Nat) (now : Nat) :
    chainFrom s.state (handle_user_message s content faults now).entered ∧
      (handle_user_message s content faults now).session.state =
        lastFrom s.state (handle_user_message s content faults now).entered := by
  unfold handle_user_message
  by_cases hgate : s.state = SessionState.idle ∨ s.state = SessionState.ai_committed
  · rw [if_pos hgate]
    by_cases h1 : SessionState.user_writing ∈ VALID_TRANSITIONS s.state
    · rw [update_state_eq_of_mem h1]
      set s1 := updatedSession s SessionState.user_writing none now with hs1
      have hs1state : s1.state = SessionState.user_writing := rfl
      by_cases hf0 : 0 ∈ faults
      · simp only [hf0, if_true]
        have hsub := submitFailure_chain s1 (dbNotFoundMsg s1.id) faults now
        rw [hs1state] at hsub
        have ha : chainFrom s.state [SessionState.user_writing] := ⟨h1, trivial⟩
        constructor
        · have hc := chainFrom_append ha hsub.1
          simpa [prependEntered] using hc
        · simp [prependEntered, lastFrom_append, lastFrom, hsub.2]
      · simp only [hf0, if_false]
        set s2 := s1.add_message { role := "user", content := content, timestamp := now } now with hs2
        have hs2state : s2.state = SessionState.user_writing := rfl
        have h2 : SessionState.user_committed ∈ VALID_TRANSITIONS s2.state := by
          rw [hs2state]; decide
        rw [update_state_eq_of_mem h2]
        set s3 := updatedSession s2 SessionState.user_committed none now with hs3
        have hs3state : s3.state = SessionState.user_committed := rfl
        have hb : chainFrom s.state [SessionState.user_writing, SessionState.user_committed] := by
          refine ⟨h1, ?_, trivial⟩
          rw [← hs2state]; exact h2
        by_cases hf1 : 1 ∈ faults
        · simp only [hf1, if_true]
          have hsub := submitFailure_chain s3 (dbNotFoundMsg s3.id) faults now
          rw [hs3state] at hsub
          constructor
          · have hc := chainFrom_append hb hsub.1
            simpa [prependEntered] using hc
          · simp [prependEntered, lastFrom_append, lastFrom, hsub.2]
        · simp only [hf1, if_false]
          exact ⟨hb, by simp [lastFrom, hs3state]⟩
    · rw [update_state_err_of_not_mem h1]
      exact submitFailure_chain s _ faults now
  · rw [if_neg hgate]
    simp [chainFrom, lastFrom]

theorem start_ai_generation_chain (s : Session) (now : Nat) :
    chainFrom s.state (start_ai_generation s now).entered ∧
      (start_ai_generation s now).session.state =
        lastFrom s.state (start_ai_generation s now).entered := by
  unfold start_ai_generation
  by_cases hst : s.state = SessionState.user_committed
  · rw [if_pos hst]
    have hmem : SessionState.ai_generating ∈ VALID_TRANSITIONS s.state := by
      rw [hst]; decide
    rw [update_state_eq_of_mem hmem]
    simp [chainFrom, hmem, updatedSession, lastFrom]
  · rw [if_neg hst]
    simp [chainFrom, lastFrom]

theorem commit_ai_message_chain (s : Session) (content : String) (now : Nat) :
    chainFrom s.state (commit_ai_message s content now).entered ∧
      (commit_ai_message s content now).session.state =
        lastFrom s.state (commit_ai_message s content now).entered := by
  unfold commit_ai_message
  by_cases hst : s.state = SessionState.ai_generating
  · rw [if_pos hst]
    have hadd : (s.add_message { role := "assistant", content := content, timestamp := now } now).state
        = s.state := rfl
    have h1 : SessionState.ai_committed ∈ VALID_TRANSITIONS
        (s.add_message { role := "assistant", content := content, timestamp := now } now).state := by
      rw [hadd, hst]; decide
    have e1 := @update_state_eq_of_mem _ _ none now h1
    have h2 : SessionState.idle ∈ VALID_TRANSITIONS
        (updatedSession (s.add_message { role := "assistant", content := content, timestamp := now } now)
          SessionState.ai_committed none now).state := by
      rw [show (updatedSession (s.add_message { role := "assistant", content := content, timestamp := now } now)
          SessionState.ai_committed none now).state = SessionState.ai_committed from rfl]
      decide
    have e2 := @update_state_eq_of_mem _ _ none now h2
    simp only [e1, e2]
    constructor
    · refine ⟨?_, ?_, trivial⟩
      · rw [← hadd]; exact h1
      · decide
    · simp [updatedSession, lastFrom]
  · rw [if_neg hst]
    simp [chainFrom, lastFrom]

theorem mark_error_chain (s : Session) (desc : String) (now : Nat) :
    chainFrom s.state (mark_error s desc now).entered ∧
      (mark_error s desc now).session.state =
        lastFrom s.state (mark_error s desc now).entered := by
  unfold mark_error
  by_cases hmem : SessionState.error ∈ VALID_TRANSITIONS s.state
  · rw [update_state_eq_of_mem hmem]
    simp [chainFrom, hmem, updatedSession, lastFrom]
  · rw [update_state_err_of_not_mem hmem]
    simp [chainFrom, lastFrom]

theorem applyOp_chain (s : Session) (step : Op × Nat) :
    chainFrom s.state (applyOp s step).entered ∧
      (applyOp s step).session.state = lastFrom s.state (applyOp s step).entered := by
  rcases step with ⟨op, now⟩
  cases op with
  | submit c f => exact handle_user_message_chain s c f now
  | startGen => exact start_ai_generation_chain s now
  | commitAi c => exact commit_ai_message_chain s c now
  | markErr d => exact mark_error_chain s d now

theorem traceOf_chain (steps : List (Op × Nat)) :
    ∀ (s : Session), chainFrom s.state (traceOf s steps) := by
  induction steps with
  | nil => intro s; trivial
  | cons step rest ih =>
    intro s
    simp only [traceOf]
    refine chainFrom_append (applyOp_chain s step).1 ?_
    rw [← (applyOp_chain s step).2]
    exact ih _

theorem start_ai_generation_ok {s : Session} {now : Nat}
    (h : s.state = SessionState.user_committed) :
    start_ai_generation s now =
      { session := updatedSession s SessionState.ai_generating none now,
        entered := [SessionState.ai_generating], outcome := Except.ok () } := by
  unfold start_ai_generation
  rw [if_pos h]
  have hmem : SessionState.ai_generating ∈ VALID_TRANSITIONS s.state := by rw [h]; decide
  rw [update_state_eq_of_mem hmem]

theorem commit_ai_message_ok {s : Session} {c : String} {now : Nat}
    (h : s.state = SessionState.ai_generating) :
    commit_ai_message s c now =
      { session := updatedSession
          (updatedSession (s.add_message { role := "assistant", content := c, timestamp := now } now)
            SessionState.ai_committed none now)
          SessionState.idle none now,
        entered := [SessionState.ai_committed, SessionState.idle],
        outcome := Except.ok () } := by
  unfold commit_ai_message
  rw [if_pos h]
  have hadd : (s.add_message { role := "assistant", content := c, timestamp := now } now).state
      = s.state := rfl
  have h1 : SessionState.ai_committed ∈ VALID_TRANSITIONS
      (s.add_message { role := "assistant", content := c, timestamp := now } now).state := by
    rw [hadd, h]; decide
  have e1 := @update_state_eq_of_mem _ _ none now h1
  have h2 : SessionState.idle ∈ VALID_TRANSITIONS
      (updatedSession (s.add_message { role := "assistant", content := c, timestamp := now } now)
        SessionState.ai_committed none now).state := by
    rw [show (updatedSession (s.add_message { role := "assistant", content := c, timestamp := now } now)
        SessionState.ai_committed none now).state = SessionState.ai_committed from rfl]
    decide
  have e2 := @update_state_eq_of_mem _ _ none now h2
  simp only [e1, e2]

theorem mark_error_ok {s : Session} {desc : String} {now : Nat}
    (h : SessionState.error ∈ VALID_TRANSITIONS s.state) :
    mark_error s desc now =
      { session := { updatedSession s SessionState.error (some desc) now with
          retry_count := s.retry_count + 1 },
        entered := [SessionState.error], outcome := Except.ok () } := by
  unfold mark_error
  rw [update_state_eq_of_mem h]
  rfl

theorem mark_error_err {s : Session} {desc : String} {now : Nat}
    (h : SessionState.error ∉ VALID_TRANSITIONS s.state) :
    mark_error s desc now =
      { session := s, entered := [],
        outcome := Except.error
          (invalidTransitionMsg s.state SessionState.error (VALID_TRANSITIONS s.state)) } := by
  unfold mark_error
  rw [update_state_err_of_not_mem h]

theorem isTerminal_token (d : String) :
    isTerminal { event_type := "token", data := d } = false := rfl

theorem isTerminal_msg_end :
    isTerminal { event_type := "message_end", data := "" } = false := rfl

theorem isTerminal_error_event (d : String) :
    isTerminal { event_type := "error", data := d } = true := rfl

theorem isTerminal_commit_done (d : String) :
    isTerminal { event_type := "commit_done", data := d } = true := rfl

theorem streamEvents_nonterminal (resp : String) :
    (streamEvents resp).all (fun e => !(isTerminal e)) = true := by
  unfold streamEvents
  rw [List.all_append]
  have h1 : ((tokensFromWords (splitWords resp.data)).map
      (fun t => ({ event_type := "token", data := ⟨t⟩ } : StreamEvent))).all
        (fun e => !(isTerminal e)) = true := by
    induction tokensFromWords (splitWords resp.data) with
    | nil => rfl
    | cons w ws ih => simp [ih, isTerminal_token]
  rw [h1]
  rfl

theorem filter_eq_nil_of_all_not {l : List StreamEvent} {p : StreamEvent → Bool}
    (h : l.all (fun e => !(p e)) = true) : l.filter p = [] := by
  induction l with
  | nil => rfl
  | cons b t ih =>
    simp only [List.all_cons, Bool.and_eq_true, Bool.not_eq_true'] at h
    simp [List.filter, h.1, ih h.2]

/-- C2, amended: every event a generation cycle publishes before its last
event is non-terminal, and whenever the dequeued session exists in state
user_committed the cycle publishes exactly one terminal event, as its last
event. The claim as frozen fails when the session was deleted before the
cycle ran (see the counterexample): then mark_error raises, the nested
except swallows it, and no terminal event is published at all. -/
theorem process_session_terminal (sess : Option Session) (sid : String) (now : Nat) :
    ((process_session sess sid now).2.dropLast.all (fun e => !(isTerminal e)) = true) ∧
    (∀ s : Session, sess = some s → s.state = SessionState.user_committed →
      ∃ e, (process_session sess sid now).2.getLast? = some e ∧ isTerminal e = true ∧
        ((process_session sess sid now).2.filter (fun x => isTerminal x)).length = 1) := by
  cases sess with
  | none =>
    constructor
    · simp [process_session, onFailure]
    · intro s hs; cases hs
  | some s =>
    by_cases hst : s.state = SessionState.user_committed
    · have hrw : process_session (some s) sid now =
        (let s1 := updatedSession s SessionState.ai_generating none now
         match s1.messages.getLast? with
         | none => onFailure (some s1) "No user message found" now
         | some m =>
           if m.role = "user" then
             let response := generate_mock_response m.content
             let evs := streamEvents response
             let rc := commit_ai_message s1 response now
             match rc.outcome with
             | Except.ok _ =>
                 (some rc.session, evs ++ [{ event_type := "commit_done", data := sid }])
             | Except.error e =>
                 let fe := onFailure (some s1) e now
                 (fe.1, evs ++ fe.2)
           else onFailure (some s1) "No user message found" now) := by
        unfold process_session
        simp only [start_ai_generation_ok hst, hst, if_true]
      rw [hrw]
      have hs1state : (updatedSession s SessionState.ai_generating none now).state
          = SessionState.ai_generating := rfl
      have hmemErr : SessionState.error ∈ VALID_TRANSITIONS
          (updatedSession s SessionState.ai_generating none now).state := by
        rw [hs1state]; decide
      cases hm : (updatedSession s SessionState.ai_generating none now).messages.getLast? with
      | none =>
        simp only [hm, onFailure, mark_error_ok hmemErr]
        refine ⟨rfl, ?_⟩
        intro s' hs' _
        exact ⟨_, rfl, rfl, rfl⟩
      | some m =>
        by_cases hrole : m.role = "user"
        · simp only [hm, hrole, if_true]
          have hcommit := @commit_ai_message_ok
            (updatedSession s SessionState.ai_generating none now)
            (generate_mock_response m.content) now hs1state
          simp only [hcommit]
          constructor
          · rw [List.dropLast_concat]
            exact streamEvents_nonterminal _
          · intro s' hs' _
            refine ⟨_, List.getLast?_concat _, rfl, ?_⟩
            rw [List.filter_append,
              filter_eq_nil_of_all_not (streamEvents_nonterminal _)]
            rfl
        · simp only [hm, hrole, if_false, onFailure, mark_error_ok hmemErr]
          refine ⟨rfl, ?_⟩
          intro s' hs' _
          exact ⟨_, rfl, rfl, rfl⟩
    · have hrw : process_session (some s) sid now =
          onFailure (some s) (cannotStartMsg s.state) now := by
        unfold process_session
        simp only [if_neg hst]
      rw [hrw]
      constructor
      · unfold onFailure
        by_cases hmem : SessionState.error ∈ VALID_TRANSITIONS s.state
        · simp only [mark_error_ok hmem]
          rfl
        · simp only [mark_error_err hmem]
          rfl
      · intro s' hs' hstate
        cases hs'
        exact absurd hstate hst

theorem flatten_map_space (ws : List (List Char)) :
    (ws.map (fun v => ' ' :: v)).flatten = sepWords ws := by
  induction ws with
  | nil => rfl
  | cons w t ih => simp [sepWords, ih]

theorem tokens_flatten (ws : List (List Char)) :
    (tokensFromWords ws).flatten = joinWords ws := by
  cases ws with
  | nil => rfl
  | cons w t => simp [tokensFromWords, joinWords, flatten_map_space]

theorem filter_map_tokens (ts : List (List Char)) :
    ((ts.map (fun t => ({ event_type := "token", data := ⟨t⟩ } : StreamEvent))).filter
        (fun e => e.event_type = "token")).map (fun e => e.data.data) = ts := by
  induction ts with
  | nil => rfl
  | cons w t ih => simp [List.filter, ih]

theorem tokenConcat_streamEvents (resp : String) :
    tokenConcat (streamEvents resp) = joinWords (splitWords resp.data) := by
  unfold tokenConcat streamEvents
  rw [List.filter_append]
  have h2 : ([{ event_type := "message_end", data := "" }] :
      List StreamEvent).filter (fun e => e.event_type = "token") = [] := rfl
  rw [h2, List.append_nil, filter_map_tokens, tokens_flatten]

theorem tokenConcat_concat_commit (evs : List StreamEvent) (sid : String) :
    tokenConcat (evs ++ [{ event_type := "commit_done", data := sid }]) = tokenConcat evs := by
  unfold tokenConcat
  rw [List.filter_append]
  have h2 : ([{ event_type := "commit_done", data := sid }] :
      List StreamEvent).filter (fun e => e.event_type = "token") = [] := rfl
  rw [h2, List.append_nil]

/-- The full happy-path result of one worker cycle. -/
theorem process_session_ok {s : Session} {m : Message} (sid : String) (now : Nat)
    (hst : s.state = SessionState.user_committed)
    (hm : s.messages.getLast? = some m)
    (hrole : m.role = "user") :
    process_session (some s) sid now =
      (some (updatedSession (updatedSession
          ((updatedSession s SessionState.ai_generating none now).add_message
            { role := "assistant", content := generate_mock_response m.content,
              timestamp := now } now)
          SessionState.ai_committed none now) SessionState.idle none now),
       streamEvents (generate_mock_response m.content) ++
         [{ event_type := "commit_done", data := sid }]) := by
  unfold process_session
  simp only [start_ai_generation_ok hst, hst, if_true]
  have hmsgs : (updatedSession s SessionState.ai_generating none now).messages
      = s.messages := rfl
  have hs1state : (updatedSession s SessionState.ai_generating none now).state
      = SessionState.ai_generating := rfl
  simp only [hmsgs, hm, hrole, if_true, commit_ai_message_ok hs1state]

theorem errInv_updated_non_error {s : Session} {t : SessionState} {now : Nat}
    (ht : t ≠ SessionState.error) :
    (updatedSession s t none now).error_message = none := by
  simp [updatedSession, truthy, ht]

theorem submitFailure_errInv (s : Session) (e : String) (faults : List Nat) (now : Nat)
    (h : errInv s) : errInv (submitFailure s e faults now).session := by
  unfold submitFailure
  by_cases hmem : SessionState.error ∈ VALID_TRANSITIONS s.state
  · rw [update_state_eq_of_mem hmem]
    by_cases hf : 2 ∈ faults <;> simp only [hf, if_true, if_false] <;> intro hcon <;>
      exact absurd rfl hcon
  · rw [update_state_err_of_not_mem hmem]
    exact h

theorem handle_user_message_errInv (s : Session) (content : String)
    (faults : List Nat) (now : Nat) (h : errInv s) :
    errInv (handle_user_message s content faults now).session := by
  unfold handle_user_message
  by_cases hgate : s.state = SessionState.idle ∨ s.state = SessionState.ai_committed
  · rw [if_pos hgate]
    by_cases h1 : SessionState.user_writing ∈ VALID_TRANSITIONS s.state
    · rw [update_state_eq_of_mem h1]
      set s1 := updatedSession s SessionState.user_writing none now with hs1
      have hinv1 : errInv s1 := fun _ => errInv_updated_non_error (by decide)
      by_cases hf0 : 0 ∈ faults
      · simp only [hf0, if_true]
        exact submitFailure_errInv s1 _ faults now hinv1
      · simp only [hf0, if_false]
        set s2 := s1.add_message { role := "user", content := content, timestamp := now } now with hs2
        have hinv2 : errInv s2 := fun _ => hinv1 (by
          rw [show s1.state = SessionState.user_writing from rfl]; decide)
        have h2 : SessionState.user_committed ∈ VALID_TRANSITIONS s2.state := by
          rw [show s2.state = SessionState.user_writing from rfl]; decide
        rw [update_state_eq_of_mem h2]
        set s3 := updatedSession s2 SessionState.user_committed none now with hs3
        have hinv3 : errInv s3 := fun _ => errInv_updated_non_error (by decide)
        by_cases hf1 : 1 ∈ faults
        · simp only [hf1, if_true]
          exact submitFailure_errInv s3 _ faults now hinv3
        · simp only [hf1, if_false]
          exact hinv3
    · rw [update_state_err_of_not_mem h1]
      exact submitFailure_errInv s _ faults now h
  · rw [if_neg hgate]
    exact h

theorem start_ai_generation_errInv (s : Session) (now : Nat) (h : errInv s) :
    errInv (start_ai_generation s now).session := by
  unfold start_ai_generation
  by_cases hst : s.state = SessionState.user_committed
  · rw [if_pos hst]
    have hmem : SessionState.ai_generating ∈ VALID_TRANSITIONS s.state := by rw [hst]; decide
    rw [update_state_eq_of_mem hmem]
    exact fun _ => errInv_updated_non_error (by decide)
  · rw [if_neg hst]
    exact h

theorem commit_ai_message_errInv (s : Session) (content : String) (now : Nat)
    (h : errInv s) : errInv (commit_ai_message s content now).session := by
  unfold commit_ai_message
  by_cases hst : s.state = SessionState.ai_generating
  · rw [if_pos hst]
    have hadd : (s.add_message { role := "assistant", content := content, timestamp := now } now).state
        = s.state := rfl
    have h1 : SessionState.ai_committed ∈ VALID_TRANSITIONS
        (s.add_message { role := "assistant", content := content, timestamp := now } now).state := by
      rw [hadd, hst]; decide
    have e1 := @update_state_eq_of_mem _ _ none now h1
    have h2 : SessionState.idle ∈ VALID_TRANSITIONS
        (updatedSession (s.add_message { role := "assistant", content := content, timestamp := now } now)
          SessionState.ai_committed none now).state := by
      rw [show (updatedSession (s.add_message { role := "assistant", content := content, timestamp := now } now)
          SessionState.ai_committed none now).state = SessionState.ai_committed from rfl]
      decide
    have e2 := @update_state_eq_of_mem _ _ none now h2
    simp only [e1, e2]
    exact fun _ => errInv_updated_non_error (by decide)
  · rw [if_neg hst]
    exact h

theorem mark_error_errInv (s : Session) (desc : String) (now : Nat) (h : errInv s) :
    errInv (mark_error s desc now).session := by
  by_cases hmem : SessionState.error ∈ VALID_TRANSITIONS s.state
  · rw [mark_error_ok hmem]
    intro hcon
    exact absurd rfl hcon
  · rw [mark_error_err hmem]
    exact h

theorem applyOp_errInv (s : Session) (step : Op × Nat) (h : errInv s) :
    errInv (applyOp s step).session := by
  rcases step with ⟨op, now⟩
  cases op with
  | submit c f => exact handle_user_message_errInv s c f now h
  | startGen => exact start_ai_generation_errInv s now h
  | commitAi c => exact commit_ai_message_errInv s c now h
  | markErr d => exact mark_error_errInv s d now h

theorem runOps_errInv (steps : List (Op × Nat)) :
    ∀ (s : Session), errInv s → errInv (runOps s steps) := by
  induction steps with
  | nil => intro s h; exact h
  | cons step rest ih =>
    intro s h
    exact ih _ (applyOp_errInv s step h)

theorem dequeue_loop_empty (iters : Nat) : dequeue_loop [] iters = (none, []) := by
  induction iters with
  | zero => rfl
  | succ k ih => simpa [dequeue_loop] using ih

theorem lookupQ_removeQ (m : EventMap) (sid : String) :
    lookupQ (removeQ m sid) sid = none := by
  induction m with
  | nil => rfl
  | cons kv rest ih =>
    rcases kv with ⟨k, v⟩
    by_cases hk : k = sid
    · simp [removeQ, hk, ih]
    · simp [removeQ, lookupQ, hk, ih]

theorem lookupQ_setQ (m : EventMap) (sid : String) (q : List StreamEvent) :
    lookupQ (setQ m sid q) sid = some q := by
  induction m with
  | nil => simp [setQ, lookupQ]
  | cons kv rest ih =>
    rcases kv with ⟨k, v⟩
    by_cases hk : k = sid
    · simp [setQ, hk, lookupQ]
    · simp [setQ, lookupQ, hk, ih]

theorem sendEvents_lookup (sid : String) (es : List StreamEvent) :
    ∀ (m : EventMap) (q : List StreamEvent), lookupQ m sid = some q →
      lookupQ (sendEvents m sid es) sid = some (q ++ es) := by
  induction es with
  | nil => intro m q h; simpa [sendEvents] using h
  | cons e rest ih =>
    intro m q h
    have hsend : send_event m sid e = setQ m sid (q ++ [e]) := by
      unfold send_event
      rw [h]
    have : sendEvents m sid (e :: rest) = sendEvents (setQ m sid (q ++ [e])) sid rest := by
      simp [sendEvents, hsend]
    rw [this, ih _ _ (lookupQ_setQ m sid (q ++ [e]))]
    simp

theorem queue_holds_exactly_post_release_events (m : EventMap) (sid : String)
    (es : List StreamEvent) :
    (get_session_events (sendEvents (cleanup_session_queue m sid) sid es) sid).1 = es := by
  have hclean : lookupQ (cleanup_session_queue m sid) sid = none := lookupQ_removeQ m sid
  cases es with
  | nil =>
    simp [sendEvents, get_session_events, hclean]
  | cons e rest =>
    have hsend : send_event (cleanup_session_queue m sid) sid e =
        setQ (cleanup_session_queue m sid) sid [e] := by
      unfold send_event
      rw [hclean]
    have hstep : sendEvents (cleanup_session_queue m sid) sid (e :: rest) =
        sendEvents (setQ (cleanup_session_queue m sid) sid [e]) sid rest := by
      simp [sendEvents, hsend]
    rw [hstep]
    have hlook := sendEvents_lookup sid rest _ _
      (lookupQ_setQ (cleanup_session_queue m sid) sid [e])
    unfold get_session_events
    rw [hlook]
    rfl

/-- C1: evaluation of mark_error at the failing input. From the idle state
(likewise ai_committed, error and timeout) mark_error does not succeed: the
error transition is absent from VALID_TRANSITIONS, update_state raises, and
the session is returned unchanged with its retry counter not incremented —
contradicting both the claim and the docstring of fsm.py mark_error, which
says it can be called from any state. From user_writing (likewise
user_committed and ai_generating) it behaves exactly as the claim says. -/
theorem mark_error_fails_outside_error_sources :
    (mark_error (demoSession SessionState.idle []) "boom" 5).outcome =
      Except.error (invalidTransitionMsg SessionState.idle SessionState.error
        [SessionState.user_writing, SessionState.timeout]) ∧
    (mark_error (demoSession SessionState.idle []) "boom" 5).session =
      demoSession SessionState.idle [] ∧
    isOkB (mark_error (demoSession SessionState.ai_committed []) "boom" 5).outcome = false ∧
    isOkB (mark_error (demoSession SessionState.timeout []) "boom" 5).outcome = false ∧
    isOkB (mark_error (demoSession SessionState.error []) "boom" 5).outcome = false ∧
    ((mark_error (demoSession SessionState.user_writing []) "boom" 5).session.state =
        SessionState.error ∧
      (mark_error (demoSession SessionState.user_writing []) "boom" 5).session.error_message =
        some "boom" ∧
      (mark_error (demoSession SessionState.user_writing []) "boom" 5).session.retry_count = 1 ∧
      isOkB (mark_error (demoSession SessionState.user_writing []) "boom" 5).outcome = true) := by
  decide

/-- C2 counterexample: a cycle on a session id that is no longer in the
database (deleted concurrently) publishes no event at all, so the number of
terminal events of that cycle is 0, not exactly 1. -/
theorem process_session_no_terminal_when_deleted :
    process_session none "s1" 0 = (none, []) ∧
    ((process_session none "s1" 0).2.filter (fun e => isTerminal e)).length = 0 := by
  decide

/-- C2 witness: on a concrete user_committed session the cycle publishes
exactly one terminal event and it is last. -/
theorem process_session_terminal_witness :
    ∃ e, (process_session
        (some (demoSession SessionState.user_committed
          [{ role := "user", content := "hi", timestamp := 0 }])) "s1" 1).2.getLast? = some e ∧
      isTerminal e = true ∧
      ((process_session
        (some (demoSession SessionState.user_committed
          [{ role := "user", content := "hi", timestamp := 0 }])) "s1" 1).2.filter
          (fun x => isTerminal x)).length = 1 :=
  (process_session_terminal _ "s1" 1).2 _ rfl rfl

/-- C3 counterexample: a failure in handle_user_message (db write 1
raising, e.g. the session was deleted concurrently) makes the session enter
the error state through the except handler of fsm.py lines 88-92, and the
retry counter is not incremented. -/
theorem submit_failure_enters_error_without_retry_increment :
    SessionState.error ∈
      (handle_user_message (demoSession SessionState.idle []) "hi" [1] 1).entered ∧
    (handle_user_message (demoSession SessionState.idle []) "hi" [1] 1).session.state =
      SessionState.error ∧
    (demoSession SessionState.idle []).state ≠ SessionState.error ∧
    (handle_user_message (demoSession SessionState.idle []) "hi" [1] 1).session.retry_count =
      (demoSession SessionState.idle []).retry_count := by
  decide

theorem submitFailure_retry (s : Session) (e : String) (faults : List Nat) (now : Nat) :
    (submitFailure s e faults now).session.retry_count = s.retry_count := by
  unfold submitFailure
  by_cases hmem : SessionState.error ∈ VALID_TRANSITIONS s.state
  · rw [update_state_eq_of_mem hmem]
    by_cases hf : 2 ∈ faults <;> simp [hf, updatedSession]
  · rw [update_state_err_of_not_mem hmem]

/-- C3, amended: the retry counter is incremented by exactly one each time
a session enters the error state through mark_error; the best-effort error
transition in the failure handler of handle_user_message enters the error
state without touching the retry counter. -/
theorem retry_counter_behavior :
    (∀ (s : Session) (desc : String) (now : Nat),
      isOkB (mark_error s desc now).outcome = true →
        (mark_error s desc now).session.retry_count = s.retry_count + 1 ∧
        (mark_error s desc now).session.state = SessionState.error) ∧
    (∀ (s : Session) (content : String) (faults : List Nat) (now : Nat),
      (handle_user_message s content faults now).session.retry_count = s.retry_count) := by
  constructor
  · intro s desc now hok
    by_cases hmem : SessionState.error ∈ VALID_TRANSITIONS s.state
    · rw [mark_error_ok hmem]
      exact ⟨by simp [updatedSession], rfl⟩
    · rw [mark_error_err hmem] at hok
      cases hok
  · intro s content faults now
    unfold handle_user_message
    by_cases hgate : s.state = SessionState.idle ∨ s.state = SessionState.ai_committed
    · rw [if_pos hgate]
      by_cases h1 : SessionState.user_writing ∈ VALID_TRANSITIONS s.state
      · rw [update_state_eq_of_mem h1]
        by_cases hf0 : 0 ∈ faults
        · simp only [hf0, if_true, prependEntered]
          rw [submitFailure_retry]
          rfl
        · simp only [hf0, if_false]
          have h2 : SessionState.user_committed ∈ VALID_TRANSITIONS
              ((updatedSession s SessionState.user_writing none now).add_message
                { role := "user", content := content, timestamp := now } now).state := by
            rw [show ((updatedSession s SessionState.user_writing none now).add_message
                { role := "user", content := content, timestamp := now } now).state =
              SessionState.user_writing from rfl]
            decide
          rw [@update_state_eq_of_mem _ _ none now h2]
          by_cases hf1 : 1 ∈ faults
          · simp only [hf1, if_true, prependEntered]
            rw [submitFailure_retry]
            rfl
          · simp only [hf1, if_false]
            rfl
      · rw [update_state_err_of_not_mem h1]
        rw [submitFailure_retry]
    · rw [if_neg hgate]

/-- C3 witness: mark_error on a concrete user_writing session succeeds and
increments the retry counter by exactly one. -/
theorem retry_counter_behavior_witness :
    isOkB (mark_error (demoSession SessionState.user_writing []) "oops" 2).outcome = true ∧
    (mark_error (demoSession SessionState.user_writing []) "oops" 2).session.retry_count =
      (demoSession SessionState.user_writing []).retry_count + 1 :=
  ⟨by decide, (retry_counter_behavior.1 (demoSession SessionState.user_writing [])
      "oops" 2 (by decide)).1⟩

/-- C4 counterexample: for the user message containing a double space the
committed assistant text is the echo response with the double space kept,
while the token payloads reconstruct the single-space join of its words, so
their concatenation differs from the committed text. -/
theorem token_concat_differs_from_committed_text :
    ∃ s2, (process_session
        (some (demoSession SessionState.user_committed
          [{ role := "user", content := "a  b", timestamp := 0 }])) "s1" 1).1 = some s2 ∧
      s2.messages.getLast?.map Message.content = some (generate_mock_response "a  b") ∧
      tokenConcat (process_session
        (some (demoSession SessionState.user_committed
          [{ role := "user", content := "a  b", timestamp := 0 }])) "s1" 1).2 ≠
        (generate_mock_response "a  b").data := by
  decide

theorem filter_tokens_payloads (ts : List (List Char)) :
    ((ts.map (fun t => ({ event_type := "token", data := ⟨t⟩ } : StreamEvent))).filter
        (fun e => e.event_type = "token")).map StreamEvent.data =
      ts.map (fun t => (⟨t⟩ : String)) := by
  induction ts with
  | nil => rfl
  | cons w t ih => simp [List.filter, ih]

/-- C4, amended: concatenating the payloads of all token events of a cycle,
in emission order, yields the words of the generated response joined by
single spaces; the text committed as the assistant message is the response
itself, so the two agree exactly when the response is already single-space
separated (true of every fixed mock response, but not of the echo response
when the user message carries irregular whitespace). The token shape part
of the claim holds as stated: the first token is the raw first word and
every later token is one leading space plus the next word. -/
theorem token_concat_reconstructs_joined_words (s : Session) (m : Message)
    (sid : String) (now : Nat)
    (hst : s.state = SessionState.user_committed)
    (hm : s.messages.getLast? = some m) (hrole : m.role = "user") :
    tokenConcat (process_session (some s) sid now).2 =
      joinWords (splitWords (generate_mock_response m.content).data) ∧
    (∃ s2, (process_session (some s) sid now).1 = some s2 ∧
      s2.messages = s.messages ++
        [{ role := "assistant", content := generate_mock_response m.content,
           timestamp := now }]) ∧
    (((process_session (some s) sid now).2.filter
        (fun e => e.event_type = "token")).map StreamEvent.data =
      (tokensFromWords (splitWords (generate_mock_response m.content).data)).map
        (fun t => (⟨t⟩ : String))) ∧
    (joinWords (splitWords (generate_mock_response m.content).data) =
        (generate_mock_response m.content).data →
      tokenConcat (process_session (some s) sid now).2 =
        (generate_mock_response m.content).data) := by
  rw [process_session_ok sid now hst hm hrole]
  refine ⟨?_, ⟨_, rfl, rfl⟩, ?_, ?_⟩
  · rw [tokenConcat_concat_commit, tokenConcat_streamEvents]
  · rw [List.filter_append]
    have hcd : ([{ event_type := "commit_done", data := sid }] :
        List StreamEvent).filter (fun e => e.event_type = "token") = [] := rfl
    rw [hcd, List.append_nil]
    unfold streamEvents
    rw [List.filter_append]
    have hme : ([{ event_type := "message_end", data := "" }] :
        List StreamEvent).filter (fun e => e.event_type = "token") = [] := rfl
    rw [hme, List.append_nil, filter_tokens_payloads]
  · intro hcanon
    rw [tokenConcat_concat_commit, tokenConcat_streamEvents, hcanon]

/-- C4 witness: for a canonical single-space response the concatenation of
the token payloads equals the committed text exactly. -/
theorem token_concat_reconstructs_joined_words_witness :
    tokenConcat (process_session
        (some (demoSession SessionState.user_committed
          [{ role := "user", content := "xyz", timestamp := 0 }])) "s1" 1).2 =
      (generate_mock_response "xyz").data :=
  (token_concat_reconstructs_joined_words
      (demoSession SessionState.user_committed
        [{ role := "user", content := "xyz", timestamp := 0 }])
      { role := "user", content := "xyz", timestamp := 0 } "s1" 1
      rfl (by decide) rfl).2.2.2 (by decide)

/-- C5 counterexample: submitting while the session is ai_generating is
rejected and the session is left unmodified, but the error does not name
the attempted target state: the gate message of fsm.py lines 60-63 names
the current state and the allowed source states only, and the string
user_writing does not occur in it. -/
theorem submit_gate_rejection_omits_target :
    (handle_user_message (demoSession SessionState.ai_generating
        [{ role := "user", content := "hi", timestamp := 0 }]) "again" [] 1).session =
      demoSession SessionState.ai_generating
        [{ role := "user", content := "hi", timestamp := 0 }] ∧
    (handle_user_message (demoSession SessionState.ai_generating
        [{ role := "user", content := "hi", timestamp := 0 }]) "again" [] 1).outcome =
      Except.error (cannotAcceptMsg SessionState.ai_generating) ∧
    strIn SessionState.user_writing.value (cannotAcceptMsg SessionState.ai_generating) = false ∧
    strIn SessionState.ai_generating.value (cannotAcceptMsg SessionState.ai_generating) = true := by
  decide

theorem invalidTransitionMsg_names (a b : SessionState) :
    strIn a.value (invalidTransitionMsg a b (VALID_TRANSITIONS a)) = true ∧
    strIn b.value (invalidTransitionMsg a b (VALID_TRANSITIONS a)) = true ∧
    ∀ c ∈ VALID_TRANSITIONS a,
      strIn c.value (invalidTransitionMsg a b (VALID_TRANSITIONS a)) = true := by
  revert a b
  decide

theorem cannotAcceptMsg_names (a : SessionState) :
    strIn a.value (cannotAcceptMsg a) = true := by
  revert a
  decide

/-- C5, amended: a transition absent from the table fails with the
ValueError of update_state, whose message names the current state, the
attempted target and the allowed set, and the session is left unmodified;
submitting in a non-accepting state (in particular ai_generating) is
rejected before any mutation with a message that names the current state
(and, as literal text, the allowed source states) but not the attempted
target, and the session is left unmodified. -/
theorem invalid_transition_rejection :
    (∀ (s : Session) (t : SessionState) (m : Option String) (now : Nat),
      t ∉ VALID_TRANSITIONS s.state →
        s.update_state t m now =
          Except.error (invalidTransitionMsg s.state t (VALID_TRANSITIONS s.state)) ∧
        strIn s.state.value (invalidTransitionMsg s.state t (VALID_TRANSITIONS s.state)) = true ∧
        strIn t.value (invalidTransitionMsg s.state t (VALID_TRANSITIONS s.state)) = true ∧
        (∀ c ∈ VALID_TRANSITIONS s.state,
          strIn c.value (invalidTransitionMsg s.state t (VALID_TRANSITIONS s.state)) = true)) ∧
    (∀ (s : Session) (content : String) (faults : List Nat) (now : Nat),
      s.state ≠ SessionState.idle → s.state ≠ SessionState.ai_committed →
        (handle_user_message s content faults now).session = s ∧
        (handle_user_message s content faults now).outcome =
          Except.error (cannotAcceptMsg s.state) ∧
        strIn s.state.value (cannotAcceptMsg s.state) = true) := by
  constructor
  · intro s t m now hmem
    obtain ⟨h1, h2, h3⟩ := invalidTransitionMsg_names s.state t
    exact ⟨update_state_err_of_not_mem hmem, h1, h2, h3⟩
  · intro s content faults now h1 h2
    unfold handle_user_message
    rw [if_neg (by rintro (h | h) <;> [exact h1 h; exact h2 h])]
    exact ⟨rfl, rfl, cannotAcceptMsg_names s.state⟩

/-- C5 witness: concrete instances of both parts at the ai_generating
state. -/
theorem invalid_transition_rejection_witness :
    (demoSession SessionState.ai_generating []).update_state SessionState.idle none 3 =
      Except.error (invalidTransitionMsg SessionState.ai_generating SessionState.idle
        [SessionState.ai_committed, SessionState.error]) ∧
    (handle_user_message (demoSession SessionState.ai_generating []) "x" [] 3).session =
      demoSession SessionState.ai_generating [] :=
  ⟨(invalid_transition_rejection.1 (demoSession SessionState.ai_generating [])
      SessionState.idle none 3 (by decide)).1,
   (invalid_transition_rejection.2 (demoSession SessionState.ai_generating [])
      "x" [] 3 (by decide) (by decide)).1⟩

/-- C6: for every session and every sequence of State Machine operations,
the successive states the session passes through form a walk on
VALID_TRANSITIONS: each consecutive pair is an edge of the table. The state
is a member of the enumerated state set by construction of the
SessionState type. -/
theorem session_states_form_walk (s : Session) (steps : List (Op × Nat)) :
    chainFrom s.state (traceOf s steps) :=
  traceOf_chain steps s

/-- C7: evaluation at the failing input and at the idle case. From
ai_committed every submit fails: the gate admits the state but the table
has no ai_committed to user_writing edge, so update_state raises, the
best-effort error marking raises too (no ai_committed to error edge), and
the session is unchanged — no successful submit exists there, contradicting
the claim and the gate message of fsm.py, which promises acceptance in
IDLE or AI_COMMITTED. From idle, one submit followed by one worker cycle
ends with exactly 2 more messages, user then assistant, and state idle. -/
theorem submit_from_ai_committed_fails_idle_cycle_succeeds :
    ((handle_user_message (demoSession SessionState.ai_committed
        [{ role := "user", content := "hi", timestamp := 0 },
         { role := "assistant", content := "yo", timestamp := 0 }]) "again" [] 1).outcome =
      Except.error (invalidTransitionMsg SessionState.ai_committed SessionState.error
        [SessionState.idle]) ∧
     (handle_user_message (demoSession SessionState.ai_committed
        [{ role := "user", content := "hi", timestamp := 0 },
         { role := "assistant", content := "yo", timestamp := 0 }]) "again" [] 1).session =
      demoSession SessionState.ai_committed
        [{ role := "user", content := "hi", timestamp := 0 },
         { role := "assistant", content := "yo", timestamp := 0 }]) ∧
    (isOkB (handle_user_message (demoSession SessionState.idle []) "Hello!" [] 1).outcome =
        true ∧
     ((process_session (some (handle_user_message (demoSession SessionState.idle [])
        "Hello!" [] 1).session) "s1" 2).1.map Session.state) = some SessionState.idle ∧
     ((process_session (some (handle_user_message (demoSession SessionState.idle [])
        "Hello!" [] 1).session) "s1" 2).1.map (fun x => x.messages.length)) = some 2 ∧
     ((process_session (some (handle_user_message (demoSession SessionState.idle [])
        "Hello!" [] 1).session) "s1" 2).1.map (fun x => x.messages.map Message.role)) =
       some ["user", "assistant"]) := by
  decide

/-- C8: dequeuing from an empty work queue terminates for every number of
polling iterations the timeout allows (time is modelled in 100 ms poll
ticks, so every finite timeout yields finitely many iterations) and returns
the explicit no-work result none; the function is total, mirroring the
Python body whose enclosing try returns None instead of raising. -/
theorem dequeue_empty_returns_no_work (iters : Nat) :
    dequeue_loop [] iters = (none, []) :=
  dequeue_loop_empty iters

/-- C9: for every session and every operation sequence, if the session
satisfies the invariant that outside the error state its error description
is none, the invariant still holds afterwards; and every successful
update_state to a non-error state with no description supplied clears any
previously set description. -/
theorem non_error_states_have_no_error_description :
    (∀ (s : Session) (steps : List (Op × Nat)), errInv s → errInv (runOps s steps)) ∧
    (∀ (s s' : Session) (t : SessionState) (now : Nat),
      s.update_state t none now = Except.ok s' → t ≠ SessionState.error →
        s'.error_message = none) := by
  constructor
  · exact fun s steps h => runOps_errInv steps s h
  · intro s s' t now hok ht
    obtain ⟨_, rfl⟩ := update_state_ok_inv hok
    exact errInv_updated_non_error ht

/-- C9 witness: the invariant after a concrete submit and startGen run
from a fresh idle session. -/
theorem non_error_states_have_no_error_description_witness :
    errInv (runOps (demoSession SessionState.idle [])
      [(Op.submit "hi" [], 1), (Op.startGen, 2)]) :=
  non_error_states_have_no_error_description.1 (demoSession SessionState.idle [])
    [(Op.submit "hi" [], 1), (Op.startGen, 2)] (fun _ => rfl)

/-- C10: releasing a session event channel is not permanent: after
cleanup_session_queue, publishing any sequence of events recreates the
queue lazily and a later get_session_events returns a queue holding exactly
the events published after the release. -/
theorem queue_recreated_after_cleanup (m : EventMap) (sid : String)
    (es : List StreamEvent) :
    (get_session_events (sendEvents (cleanup_session_queue m sid) sid es) sid).1 = es :=
  queue_holds_exactly_post_release_events m sid es
